import Mathlib

/-!
Verification of the WhatsApp broadcast dispatcher
(`Telesales-hot-leads-submitted-form-and-not-created-payment-link.py`).

This file gives a shallow embedding of the program's core: the HMAC signer
`generate_auth_headers`, the input validator `validate_dataframe`, the
per-recipient sender `send_whatsapp` (send, optional log fetch, error
capture), and the batch loop of the `run_clicked` handler.

Modelling decisions:
* Python dict/JSON values are modelled by the inductive `Json`; the result of
  calling `.json()` on an HTTP response is carried in the response model as an
  `Except String Json` (error = the exception text Python would raise).
* The network (`requests.post` / `requests.get`) is an oracle supplied as an
  argument; each recipient of a batch has its own oracle.  Side effects
  (network calls and `time.sleep`) are recorded in an event trace.
* The `sleep_after_seconds` float is modelled as a rational number.
* The clock reading `datetime.utcnow()` is an explicit `PyDateTime` argument;
  SHA-256, HMAC and base64 are implemented executably over `Nat` bytes.
* CSV cell values reaching `row.get` are modelled as strings (the code
  applies `str(...)` to them immediately).
-/

/-- Model of a Python/JSON value (`dict`, `list`, `str`, `int`, `bool`,
`None`). -/
inductive Json where
  | null : Json
  | bool (b : Bool) : Json
  | num (n : Int) : Json
  | str (s : String) : Json
  | arr (xs : List Json) : Json
  | obj (fields : List (String × Json)) : Json

/-- First-match lookup in a field list, modelling Python `dict` access (keys
are unique in a Python dict, so first match is the match). -/
def jsonLookup (fields : List (String × Json)) (key : String) : Option Json :=
  match fields with
  | [] => none
  | (k, v) :: rest => if k = key then some v else jsonLookup rest key

/-- Python truthiness of a value (`if broadcast_id:`): `None`, `False`, `0`,
`""`, `[]` and `{}` are falsy. -/
def Json.truthy : Json → Bool
  | Json.null => false
  | Json.bool b => b
  | Json.num n => n != 0
  | Json.str s => s != ""
  | Json.arr xs => !xs.isEmpty
  | Json.obj fs => !fs.isEmpty

/-- Hex digit for `\uXXXX` escapes produced by `json.dumps`. -/
def hexDigit (n : Nat) : Char :=
  if n < 10 then Char.ofNat (48 + n) else Char.ofNat (87 + n)

/-- Four-digit lowercase hex, as in Python `\uXXXX` escapes. -/
def hex4 (n : Nat) : String :=
  String.mk [hexDigit (n / 4096 % 16), hexDigit (n / 256 % 16),
             hexDigit (n / 16 % 16), hexDigit (n % 16)]

/-- Escape one character the way `json.dumps` (default `ensure_ascii=True`)
does inside a string literal. -/
def jsonEscapeChar (c : Char) : String :=
  if c = '\\' then "\\\\"
  else if c = '"' then "\\\""
  else if c = '\n' then "\\n"
  else if c = '\t' then "\\t"
  else if c = '\x0d' then "\\r"
  else if c.toNat ≥ 32 ∧ c.toNat < 127 then String.mk [c]
  else "\\u" ++ hex4 c.toNat

/-- Serialize a string as a JSON string literal. -/
def jsonQuote (s : String) : String :=
  "\"" ++ String.join (s.toList.map jsonEscapeChar) ++ "\""

/-- Join with `", "`, the default item separator of `json.dumps`. -/
def joinComma : List String → String
  | [] => ""
  | [x] => x
  | x :: rest => x ++ ", " ++ joinComma rest

mutual
/-- Model of Python `json.dumps` with default options (separators `", "` and
`": "`, `ensure_ascii=True`). -/
def Json.dumps : Json → String
  | Json.null => "null"
  | Json.bool b => if b then "true" else "false"
  | Json.num n => toString n
  | Json.str s => jsonQuote s
  | Json.arr xs => "[" ++ joinComma (Json.dumpsList xs) ++ "]"
  | Json.obj fs => "\x7b" ++ joinComma (Json.dumpsFields fs) ++ "\x7d"

/-- `dumps` of each element of an array. -/
def Json.dumpsList : List Json → List String
  | [] => []
  | x :: rest => Json.dumps x :: Json.dumpsList rest

/-- `dumps` of each `"key": value` entry of an object. -/
def Json.dumpsFields : List (String × Json) → List String
  | [] => []
  | (k, v) :: rest => (jsonQuote k ++ ": " ++ Json.dumps v) :: Json.dumpsFields rest
end

/-- Model of Python `str(value)` as used in the f-string building the log URL
path (`f"/qontak/chat/v1/broadcasts/{broadcast_id}/whatsapp/log"`).  Only the
string case is ever reached by the program with a well-formed API response;
the other cases follow Python `str` conventions. -/
def Json.pyStr : Json → String
  | Json.null => "None"
  | Json.bool b => if b then "True" else "False"
  | Json.num n => toString n
  | Json.str s => s
  | j => Json.dumps j

/-- A UTC clock reading, the implicit input of `datetime.utcnow()` in
`generate_auth_headers`.  `month` is 1..12 and `day` 1..31 as in Python. -/
structure PyDateTime where
  year : Nat
  month : Nat
  day : Nat
  hour : Nat
  minute : Nat
  second : Nat
deriving DecidableEq, Repr

/-- Day of week of a Gregorian date (0 = Sunday), Sakamoto's method — the
value `datetime.weekday` derives `%a` from. -/
def dayOfWeek (y m d : Nat) : Nat :=
  let t := [0, 3, 2, 5, 0, 3, 5, 1, 4, 6, 2, 4]
  let y' := if m < 3 then y - 1 else y
  (y' + y' / 4 - y' / 100 + y' / 400 + t.getD (m - 1) 0 + d) % 7

/-- Weekday abbreviations of `strftime("%a")` in the C locale. -/
def weekdayAbbrev (w : Nat) : String :=
  ["Sun", "Mon", "Tue", "Wed", "Thu", "Fri", "Sat"].getD w "Sun"

/-- Month abbreviations of `strftime("%b")` in the C locale (`m` is 1..12). -/
def monthAbbrev (m : Nat) : String :=
  ["Jan", "Feb", "Mar", "Apr", "May", "Jun",
   "Jul", "Aug", "Sep", "Oct", "Nov", "Dec"].getD (m - 1) "Jan"

/-- Zero-padded two-digit decimal, as `%d`, `%H`, `%M`, `%S` produce. -/
def pad2 (n : Nat) : String :=
  if n < 10 then "0" ++ toString n else toString n

/-- Model of `datetime.utcnow().strftime("%a, %d %b %Y %H:%M:%S GMT")`, the
date string of `generate_auth_headers`. -/
def formatRfc1123 (t : PyDateTime) : String :=
  weekdayAbbrev (dayOfWeek t.year t.month t.day) ++ ", " ++ pad2 t.day ++ " " ++
    monthAbbrev t.month ++ " " ++ toString t.year ++ " " ++
    pad2 t.hour ++ ":" ++ pad2 t.minute ++ ":" ++ pad2 t.second ++ " GMT"

/-- UTF-8 encoding of one character, modelling Python `str.encode()`. -/
def utf8Char (c : Char) : List Nat :=
  let n := c.toNat
  if n < 128 then [n]
  else if n < 2048 then [192 + n / 64, 128 + n % 64]
  else if n < 65536 then [224 + n / 4096, 128 + n / 64 % 64, 128 + n % 64]
  else [240 + n / 262144, 128 + n / 4096 % 64, 128 + n / 64 % 64, 128 + n % 64]

/-- UTF-8 bytes of a string (Python `str.encode()`), as a list of `Nat`
values below 256. -/
def strBytes (s : String) : List Nat :=
  (s.toList.map utf8Char).flatten

/-- 32-bit truncation. -/
def w32 (n : Nat) : Nat := n % 4294967296

/-- Rotate a 32-bit word right by `k` bit positions. -/
def rotr32 (k n : Nat) : Nat :=
  w32 (n / 2 ^ k + n % 2 ^ k * 2 ^ (32 - k))

/-- The 64 SHA-256 round constants (FIPS 180-4, written in decimal). -/
def shaK : List Nat :=
  [1116352408, 1899447441, 3049323471, 3921009573, 961987163,
   1508970993, 2453635748, 2870763221, 3624381080, 310598401,
   607225278, 1426881987, 1925078388, 2162078206, 2614888103,
   3248222580, 3835390401, 4022224774, 264347078, 604807628,
   770255983, 1249150122, 1555081692, 1996064986, 2554220882,
   2821834349, 2952996808, 3210313671, 3336571891, 3584528711,
   113926993, 338241895, 666307205, 773529912, 1294757372,
   1396182291, 1695183700, 1986661051, 2177026350, 2456956037,
   2730485921, 2820302411, 3259730800, 3345764771, 3516065817,
   3600352804, 4094571909, 275423344, 430227734, 506948616,
   659060556, 883997877, 958139571, 1322822218, 1537002063,
   1747873779, 1955562222, 2024104815, 2227730452, 2361852424,
   2428436474, 2756734187, 3204031479, 3329325298]

/-- The SHA-256 initial hash value (FIPS 180-4, written in decimal). -/
def shaH0 : List Nat :=
  [1779033703, 3144134277, 1013904242, 2773480762,
   1359893119, 2600822924, 528734635, 1541459225]

/-- Group a byte list into 64-byte blocks (`bs` has length a multiple of 64
after padding; `buf` is the reversed current block). -/
def chunk64 : List Nat → List Nat → List (List Nat)
  | [], buf => if buf.isEmpty then [] else [buf.reverse]
  | b :: bs, buf =>
      let buf' := b :: buf
      if buf'.length = 64 then buf'.reverse :: chunk64 bs [] else chunk64 bs buf'

/-- Big-endian 32-bit words from bytes. -/
def bytesToWords : List Nat → List Nat
  | b0 :: b1 :: b2 :: b3 :: rest => (((b0 * 256 + b1) * 256 + b2) * 256 + b3) :: bytesToWords rest
  | _ => []

/-- Big-endian byte expansion of a number (`k` bytes). -/
def natToBytesBE (k n : Nat) : List Nat :=
  match k with
  | 0 => []
  | j + 1 => natToBytesBE j (n / 256) ++ [n % 256]

/-- The next word of the SHA-256 message schedule, from the last 16 words
already computed. -/
def schedNext (w : List Nat) : Nat :=
  let n := w.length
  let at16 := w.getD (n - 16) 0
  let at15 := w.getD (n - 15) 0
  let at7 := w.getD (n - 7) 0
  let at2 := w.getD (n - 2) 0
  let s0 := Nat.xor (Nat.xor (rotr32 7 at15) (rotr32 18 at15)) (at15 / 2 ^ 3)
  let s1 := Nat.xor (Nat.xor (rotr32 17 at2) (rotr32 19 at2)) (at2 / 2 ^ 10)
  w32 (at16 + s0 + at7 + s1)

/-- Extend the 16 block words to the 64-entry message schedule
(`fuel` = 48 extension steps). -/
def extendSched : Nat → List Nat → List Nat
  | 0, w => w
  | k + 1, w => extendSched k (w ++ [schedNext w])

/-- SHA-256 working state. -/
structure ShaState where
  a : Nat
  b : Nat
  c : Nat
  d : Nat
  e : Nat
  f : Nat
  g : Nat
  h : Nat
deriving DecidableEq, Repr

/-- One SHA-256 round with schedule word and constant. -/
def shaRound (s : ShaState) (kw : Nat × Nat) : ShaState :=
  let S1 := Nat.xor (Nat.xor (rotr32 6 s.e) (rotr32 11 s.e)) (rotr32 25 s.e)
  let ch := Nat.xor (Nat.land s.e s.f) (Nat.land (4294967295 - s.e) s.g)
  let temp1 := w32 (s.h + S1 + ch + kw.1 + kw.2)
  let S0 := Nat.xor (Nat.xor (rotr32 2 s.a) (rotr32 13 s.a)) (rotr32 22 s.a)
  let maj := Nat.xor (Nat.xor (Nat.land s.a s.b) (Nat.land s.a s.c)) (Nat.land s.b s.c)
  let temp2 := w32 (S0 + maj)
  { a := w32 (temp1 + temp2), b := s.a, c := s.b, d := s.c,
    e := w32 (s.d + temp1), f := s.e, g := s.f, h := s.g }

/-- Compress one 64-byte block into the running hash value. -/
def shaCompress (hv : List Nat) (block : List Nat) : List Nat :=
  let w := extendSched 48 (bytesToWords block)
  let init : ShaState :=
    { a := hv.getD 0 0, b := hv.getD 1 0, c := hv.getD 2 0, d := hv.getD 3 0,
      e := hv.getD 4 0, f := hv.getD 5 0, g := hv.getD 6 0, h := hv.getD 7 0 }
  let s := (List.zip shaK w).foldl shaRound init
  [w32 (hv.getD 0 0 + s.a), w32 (hv.getD 1 0 + s.b), w32 (hv.getD 2 0 + s.c),
   w32 (hv.getD 3 0 + s.d), w32 (hv.getD 4 0 + s.e), w32 (hv.getD 5 0 + s.f),
   w32 (hv.getD 6 0 + s.g), w32 (hv.getD 7 0 + s.h)]

/-- SHA-256 padding: `0x80`, zeros to 56 mod 64, then the 64-bit big-endian
bit length. -/
def shaPad (msg : List Nat) : List Nat :=
  let len := msg.length
  let zeros := (64 + 56 - (len + 1) % 64) % 64
  msg ++ [128] ++ List.replicate zeros 0 ++ natToBytesBE 8 (len * 8)

/-- SHA-256 digest (32 bytes) of a byte list, modelling `hashlib.sha256`. -/
def sha256 (msg : List Nat) : List Nat :=
  let hv := (chunk64 (shaPad msg) []).foldl shaCompress shaH0
  (hv.map (natToBytesBE 4)).flatten

/-- HMAC-SHA-256 (RFC 2104), modelling `hmac.new(key, msg, hashlib.sha256)`:
a key longer than the 64-byte block is first hashed, then zero-padded. -/
def hmacSha256 (key msg : List Nat) : List Nat :=
  let k0 := if key.length > 64 then sha256 key else key
  let kpad := k0 ++ List.replicate (64 - k0.length) 0
  let ipad := kpad.map (Nat.xor 54)
  let opad := kpad.map (Nat.xor 92)
  sha256 (opad ++ sha256 (ipad ++ msg))

/-- The base64 alphabet. -/
def b64Alphabet : List Char :=
  "ABCDEFGHIJKLMNOPQRSTUVWXYZabcdefghijklmnopqrstuvwxyz0123456789+/".toList

/-- Character at a 6-bit index of the base64 alphabet. -/
def b64Char (n : Nat) : Char := b64Alphabet.getD n 'A'

/-- Base64 encoding of a byte list, modelling `base64.b64encode(...).decode()`. -/
def base64Encode : List Nat → String
  | b0 :: b1 :: b2 :: rest =>
      let n := (b0 * 256 + b1) * 256 + b2
      String.mk [b64Char (n / 262144), b64Char (n / 4096 % 64),
                 b64Char (n / 64 % 64), b64Char (n % 64)] ++ base64Encode rest
  | [b0, b1] =>
      let n := (b0 * 256 + b1) * 4
      String.mk [b64Char (n / 4096), b64Char (n / 64 % 64), b64Char (n % 64)] ++ "="
  | [b0] =>
      let n := b0 * 16
      String.mk [b64Char (n / 64), b64Char (n % 64)] ++ "=="
  | [] => ""

/-- The whitespace set of Python `str.strip()`. -/
def isPyWhitespace (c : Char) : Bool :=
  c == ' ' || c == '\t' || c == '\n' || c == '\x0d' || c == '\x0b' || c == '\x0c'

/-- Drop leading Python whitespace from a character list. -/
def dropLeadingWs : List Char → List Char
  | [] => []
  | c :: cs => if isPyWhitespace c then dropLeadingWs cs else c :: cs

/-- Model of Python `str.strip()`: whitespace removed from both ends. -/
def pyStrip (s : String) : String :=
  String.mk (dropLeadingWs (dropLeadingWs s.toList).reverse).reverse

/-- The constant `API_BASE` of the program. -/
def API_BASE : String := "https://api.mekari.com"

/-- The headers returned by `generate_auth_headers` (keys `Authorization`,
`Date`, `Content-Type`). -/
structure AuthHeaders where
  authorization : String
  date : String
  contentType : String
deriving DecidableEq, Repr

/-- Embedding of `generate_auth_headers(http_method, url_path, client_id,
client_secret)`; the implicit `datetime.utcnow()` reading is the explicit
argument `now`. -/
def generate_auth_headers (http_method url_path client_id client_secret : String)
    (now : PyDateTime) : AuthHeaders :=
  let date_string := formatRfc1123 now
  let request_line := http_method ++ " " ++ url_path ++ " HTTP/1.1"
  let string_to_sign := "date: " ++ date_string ++ "\n" ++ request_line
  let signature :=
    base64Encode (hmacSha256 (strBytes client_secret) (strBytes string_to_sign))
  { authorization :=
      "hmac username=\"" ++ client_id ++ "\", algorithm=\"hmac-sha256\", " ++
        "headers=\"date request-line\", signature=\"" ++ signature ++ "\"",
    date := date_string,
    contentType := "application/json" }

/-- Embedding of `validate_dataframe`: the input dataframe is represented by
its column list; returns `(ok, missing)`.  (The source iterates a Python
`set` literal, whose order is unspecified; the model fixes the literal's
written order, which only affects the order of `missing`, not emptiness.) -/
def validate_dataframe (columns : List String) : Bool × List String :=
  let required := ["to_number", "to_name"]
  let missing := required.filter (fun c => !columns.contains c)
  (missing.isEmpty, missing)

/-- An HTTP response as `send_whatsapp` observes it: status, raw text, and
the outcome of calling `.json()` on it (`Except.error` = the parse exception
text Python would raise). -/
structure HttpResponse where
  status_code : Nat
  text : String
  jsonBody : Except String Json

/-- Outcome of one `requests.post` / `requests.get` call: a response, or a
transport exception (connection error, timeout) with its text. -/
inductive HttpOutcome where
  | resp (r : HttpResponse)
  | exn (msg : String)

/-- Network oracle for one recipient: the response to the broadcast POST and
the response to a GET, keyed by URL path. -/
structure NetOracle where
  post : HttpOutcome
  getAt : String → HttpOutcome

/-- Observable side effects of `send_whatsapp`, in order. -/
inductive NetEvent where
  | post (path : String) (payload : Json)
  | sleep (seconds : ℚ)
  | get (path : String)

/-- One input row (`df.to_dict(orient="records")` entry); cell values are
modelled as the strings `str(...)` turns them into. -/
def Row : Type := List (String × String)

/-- Python `row.get(key, default)` on a record row. -/
def rowGet (row : Row) (key dflt : String) : String :=
  match row with
  | [] => dflt
  | (k, v) :: rest => if k = key then v else rowGet rest key dflt

/-- The result dict built by `send_whatsapp`; `none` models a field still
holding its initial `None`. -/
structure SendResult where
  to_number : String
  to_name : String
  status_code : Option Nat
  broadcast_id : Option Json
  send_response : Option String
  log_status_code : Option Nat
  log_response : Option String
  error : Option String

/-- Truthiness of the optional `image_url` argument (`if image_url:`). -/
def optTruthy (o : Option String) : Bool :=
  match o with
  | none => false
  | some s => s != ""

/-- Python `x or default` on an optional string (`image_filename or
"banner.jpg"`). -/
def pyStrOr (o : Option String) (dflt : String) : String :=
  match o with
  | some s => if s != "" then s else dflt
  | none => dflt

/-- The fixed POST path of the broadcast-creation endpoint. -/
def post_url_path : String := "/qontak/chat/v1/broadcasts/whatsapp/direct"

/-- Embedding of the payload dict built in `send_whatsapp` (lines 80-99),
including the conditional `parameters.header` media block. -/
def buildPayload (to_number to_name template_id channel_id : String)
    (image_url image_filename : Option String) : Json :=
  let params : List (String × Json) :=
    if optTruthy image_url then
      [("body", Json.arr []),
       ("header", Json.obj
         [("format", Json.str "IMAGE"),
          ("params", Json.arr
            [Json.obj [("key", Json.str "url"),
                       ("value", Json.str (image_url.getD ""))],
             Json.obj [("key", Json.str "filename"),
                       ("value", Json.str (pyStrOr image_filename "banner.jpg"))]])])]
    else [("body", Json.arr [])]
  Json.obj
    [("to_number", Json.str to_number),
     ("to_name", Json.str to_name),
     ("message_template_id", Json.str template_id),
     ("channel_integration_id", Json.str channel_id),
     ("language", Json.obj [("code", Json.str "id")]),
     ("parameters", Json.obj params)]

/-- Embedding of `data.get("data", {}).get("id")`: `Except.error` models the
`AttributeError` raised when a `.get` receiver is not a dict (caught by the
enclosing `try`), `Except.ok none` models a `None` result. -/
def extractBroadcastId (data : Json) : Except String (Option Json) :=
  match data with
  | Json.obj fs =>
      match (jsonLookup fs "data").getD (Json.obj []) with
      | Json.obj inner => Except.ok (jsonLookup inner "id")
      | _ => Except.error "AttributeError: object has no attribute get"
  | _ => Except.error "AttributeError: object has no attribute get"

/-- Embedding of `send_whatsapp` (lines 62-143).  The network is the oracle
`net`; the returned event list records the POST, the `time.sleep`, and the
log GET in program order.  Auth headers only feed the network call, which the
oracle abstracts, so they do not appear in the observable state. -/
def send_whatsapp (row : Row) (template_id channel_id : String)
    (image_url image_filename : Option String)
    (sleep_after_seconds : ℚ) (net : NetOracle) :
    SendResult × List NetEvent :=
  let to_number := pyStrip (rowGet row "to_number" "")
  let to_name := pyStrip (rowGet row "to_name" "")
  let payload :=
    buildPayload to_number to_name template_id channel_id image_url image_filename
  let result0 : SendResult :=
    { to_number := to_number, to_name := to_name, status_code := none,
      broadcast_id := none, send_response := none, log_status_code := none,
      log_response := none, error := none }
  let evPost := [NetEvent.post post_url_path payload]
  match net.post with
  | HttpOutcome.exn msg => ({ result0 with error := some msg }, evPost)
  | HttpOutcome.resp r =>
    let result1 :=
      { result0 with status_code := some r.status_code, send_response := some r.text }
    if r.status_code ∈ [200, 201, 202] then
      match r.jsonBody with
      | Except.error msg => ({ result1 with error := some msg }, evPost)
      | Except.ok data =>
        match extractBroadcastId data with
        | Except.error msg => ({ result1 with error := some msg }, evPost)
        | Except.ok bid =>
          let result2 := { result1 with broadcast_id := bid }
          match bid with
          | none => (result2, evPost)
          | some idv =>
            if idv.truthy then
              let get_url_path :=
                "/qontak/chat/v1/broadcasts/" ++ idv.pyStr ++ "/whatsapp/log"
              let evs := evPost ++
                [NetEvent.sleep (max 0 sleep_after_seconds), NetEvent.get get_url_path]
              match net.getAt get_url_path with
              | HttpOutcome.exn msg => ({ result2 with error := some msg }, evs)
              | HttpOutcome.resp g =>
                  ({ result2 with log_status_code := some g.status_code,
                                  log_response := some g.text }, evs)
            else (result2, evPost)
    else
      let errJson :=
        match r.jsonBody with
        | Except.ok j => j
        | Except.error _ => Json.obj [("raw", Json.str r.text)]
      ({ result1 with error := some (Json.dumps errJson) }, evPost)

/-- Embedding of the batch loop of `run_clicked` (lines 242-260): one
`send_whatsapp` call per row, in order, appending each result; `nets i` is
the network's behavior for the `i`-th remaining recipient. -/
def run_batch (template_id channel_id : String)
    (image_url image_filename : Option String) (sleep_after_seconds : ℚ)
    (nets : Nat → NetOracle) : List Row → List SendResult × List NetEvent
  | [] => ([], [])
  | row :: rest =>
      let first := send_whatsapp row template_id channel_id image_url image_filename
        sleep_after_seconds (nets 0)
      let later := run_batch template_id channel_id image_url image_filename
        sleep_after_seconds (fun i => nets (i + 1)) rest
      (first.1 :: later.1, first.2 ++ later.2)

/-- Python `all([...])` over strings (empty string is falsy). -/
def pyAllStr (xs : List String) : Bool := xs.all (fun s => s != "")

/-- The inputs of the `run_clicked` handler: sidebar values and the loaded
dataframe (columns plus record rows). -/
structure RunInputs where
  client_id : String
  client_secret : String
  template_id : String
  channel_id : String
  image_url : String
  image_filename : String
  sleep_after_seconds : ℚ
  max_rows : Nat
  columns : List String
  rows : List Row

/-- Outcome of a run: aborted by `st.stop()` with one diagnostic, or
completed with the collected results. -/
inductive RunOutcome where
  | aborted (diagnostic : String)
  | completed (results : List SendResult)

/-- Embedding of the `run_clicked` handler (lines 224-260): credential
check, column validation, optional `max_rows` truncation, then the batch
loop.  The event list is every network/sleep effect of the run. -/
def run_clicked (inp : RunInputs) (nets : Nat → NetOracle) :
    RunOutcome × List NetEvent :=
  if !pyAllStr [inp.client_id, inp.client_secret, inp.template_id, inp.channel_id] then
    (RunOutcome.aborted
      "Client/Template/Channel credentials are missing. Provide them in the sidebar.", [])
  else
    let v := validate_dataframe inp.columns
    if !v.1 then
      (RunOutcome.aborted ("Missing required columns: " ++ joinComma v.2), [])
    else
      let rows := if inp.max_rows > 0 then inp.rows.take inp.max_rows else inp.rows
      let image_url :=
        if inp.image_url != "" then some (pyStrip inp.image_url) else none
      let image_filename :=
        if inp.image_filename != "" then some (pyStrip inp.image_filename) else none
      let b := run_batch inp.template_id inp.channel_id image_url image_filename
        inp.sleep_after_seconds nets rows
      (RunOutcome.completed b.1, b.2)

/-- Whether `pat` matches at the head of `l`. -/
def headMatch : List Char → List Char → Bool
  | [], _ => true
  | _ :: _, [] => false
  | a :: as, b :: bs => a == b && headMatch as bs

/-- Whether `pat` occurs as a contiguous sublist of `l`. -/
def subOccurs (pat : List Char) : List Char → Bool
  | [] => headMatch pat []
  | b :: bs => headMatch pat (b :: bs) || subOccurs pat bs

/-- Substring test (`pat in s` in Python). -/
def strHasSub (s pat : String) : Bool := subOccurs pat.toList s.toList

/-- The error value the non-success branch serializes: the body parsed as
JSON when possible, otherwise `{"raw": <text>}` (lines 134-138). -/
def jsonOrRaw (r : HttpResponse) : Json :=
  match r.jsonBody with
  | Except.ok j => j
  | Except.error _ => Json.obj [("raw", Json.str r.text)]

/-- The `parameters.header` entry of a payload, when present. -/
def payloadHeader (p : Json) : Option Json :=
  match p with
  | Json.obj fs =>
      match jsonLookup fs "parameters" with
      | some (Json.obj ps) => jsonLookup ps "header"
      | _ => none
  | _ => none

/-- The media header block the payload carries when an image URL is
configured. -/
def mediaHeaderBlock (image_url image_filename : Option String) : Json :=
  Json.obj
    [("format", Json.str "IMAGE"),
     ("params", Json.arr
       [Json.obj [("key", Json.str "url"),
                  ("value", Json.str (image_url.getD ""))],
        Json.obj [("key", Json.str "filename"),
                  ("value", Json.str (pyStrOr image_filename "banner.jpg"))]])]

/-- A successful send response body carrying broadcast id `bc_1`. -/
def sampleIdData : Json := Json.obj [("data", Json.obj [("id", Json.str "bc_1")])]

/-- A GET oracle answering every path with a 200 log body. -/
def sampleLogResp : String → HttpOutcome :=
  fun _ => HttpOutcome.resp ⟨200, "log-body", Except.ok (Json.arr [])⟩

/-- Oracle: POST succeeds (201, id `bc_1`), log GET succeeds. -/
def successNet : NetOracle :=
  ⟨HttpOutcome.resp ⟨201, Json.dumps sampleIdData, Except.ok sampleIdData⟩,
   sampleLogResp⟩

/-- The 422 rejection body of the C2 scenario. -/
def err422Data : Json := Json.obj [("error", Json.str "invalid number")]

/-- Oracle: POST rejected with HTTP 422 and body `{"error": "invalid number"}`. -/
def err422Net : NetOracle :=
  ⟨HttpOutcome.resp ⟨422, Json.dumps err422Data, Except.ok err422Data⟩,
   sampleLogResp⟩

/-- The three-recipient input of the C2 scenario. -/
def rows3 : List Row :=
  [[("to_number", "+6281"), ("to_name", "Alice")],
   [("to_number", "+6282"), ("to_name", "Bob")],
   [("to_number", "+6283"), ("to_name", "Cara")]]

/-- Network behavior of the C2 scenario: recipient #2 (index 1) is rejected
with 422, the others succeed. -/
def nets3 : Nat → NetOracle := fun i => if i = 1 then err422Net else successNet

/-- The log-fetch path built for a broadcast id (line 126). -/
def logPath (idv : Json) : String :=
  "/qontak/chat/v1/broadcasts/" ++ idv.pyStr ++ "/whatsapp/log"

/-- A fixed clock reading used in concrete instances. -/
def sampleTime : PyDateTime := ⟨2026, 10, 12, 9, 5, 3⟩

/-- A send response body carrying broadcast id `bc_123`. -/
def bc123Data : Json := Json.obj [("data", Json.obj [("id", Json.str "bc_123")])]

/-- Oracle: POST accepted (202) with id `bc_123`; log GET answers 200. -/
def bc123Net : NetOracle :=
  ⟨HttpOutcome.resp ⟨202, Json.dumps bc123Data, Except.ok bc123Data⟩,
   fun _ => HttpOutcome.resp ⟨200, "log-ok", Except.ok Json.null⟩⟩

/-- Oracle: POST succeeds with id `bc_123` but the log GET raises a read
timeout. -/
def getTimeoutNet : NetOracle :=
  ⟨HttpOutcome.resp ⟨201, Json.dumps bc123Data, Except.ok bc123Data⟩,
   fun _ => HttpOutcome.exn "HTTPSConnectionPool: Read timed out."⟩

/-- Oracle: the POST itself raises a connection timeout. -/
def postTimeoutNet : NetOracle :=
  ⟨HttpOutcome.exn "ConnectTimeout: Connection to api.mekari.com timed out.",
   fun _ => HttpOutcome.exn "ConnectTimeout: Connection to api.mekari.com timed out."⟩

/-- A 200 response whose body is not JSON (`.json()` raises). -/
def badJsonResp : HttpResponse :=
  ⟨200, "<html>Service maintenance</html>",
   Except.error "Expecting value: line 1 column 1 (char 0)"⟩

/-- A sample input row. -/
def sampleRow : Row := [("to_number", "+628123"), ("to_name", "Dina")]

/-- Run inputs whose dataframe lacks the `to_number` column. -/
def missingColInp : RunInputs :=
  { client_id := "cid", client_secret := "sec", template_id := "tpl",
    channel_id := "chan", image_url := "", image_filename := "",
    sleep_after_seconds := 10, max_rows := 0,
    columns := ["to_name", "phone"],
    rows := [[("to_name", "Eka"), ("phone", "+62")]] }

/-- Helper: the first component of `run_batch` has one entry per input row. -/
theorem run_batch_length (t c : String) (iu ifn : Option String) (d : ℚ)
    (nets : Nat → NetOracle) (rows : List Row) :
    (run_batch t c iu ifn d nets rows).1.length = rows.length := by
  induction rows generalizing nets with
  | nil => rfl
  | cons r rest ih => simp [run_batch, ih]

/-- Helper: the `i`-th result of `run_batch` is the `send_whatsapp` outcome
of the `i`-th input row under the `i`-th oracle. -/
theorem run_batch_nth (t c : String) (iu ifn : Option String) (d : ℚ)
    (nets : Nat → NetOracle) (rows : List Row) (i : Nat) :
    (run_batch t c iu ifn d nets rows).1[i]? =
      (rows[i]?).map (fun row => (send_whatsapp row t c iu ifn d (nets i)).1) := by
  induction rows generalizing nets i with
  | nil => rfl
  | cons r rest ih =>
      cases i with
      | zero => simp [run_batch]
      | succ j => simpa [run_batch] using ih (fun k => nets (k + 1)) j

/-- C1: for every input recipient sequence the batch run produces exactly one
`BroadcastResult` per input recipient, in input order — the `i`-th result is
the `send_whatsapp` outcome for the `i`-th recipient — and no result is
skipped whatever the network (including failing sends). -/
theorem c1_batch_yields_one_ordered_result_per_recipient
    (t c : String) (iu ifn : Option String) (d : ℚ)
    (nets : Nat → NetOracle) (rows : List Row) :
    (run_batch t c iu ifn d nets rows).1.length = rows.length ∧
    ∀ i : Nat, (run_batch t c iu ifn d nets rows).1[i]? =
      (rows[i]?).map (fun row => (send_whatsapp row t c iu ifn d (nets i)).1) :=
  ⟨run_batch_length t c iu ifn d nets rows,
   fun i => run_batch_nth t c iu ifn d nets rows i⟩

/-- C2: a send whose HTTP status is not 200/201/202 yields a result with
`broadcast_id`, `log_status_code` and `log_response` absent and `error` set
to the serialized response body (parsed as JSON when possible, otherwise
wrapped raw text), and no log fetch happens; in the three-recipient scenario
where recipient #2 is rejected with HTTP 422 and body
`{"error": "invalid number"}`, result #2 has `status_code = 422`, an `error`
containing `invalid number` and no `broadcast_id`, while results #1 and #3
are processed normally. -/
theorem c2_nonsuccess_send_captures_error_without_id :
    (∀ (row : Row) (t c : String) (iu ifn : Option String) (d : ℚ)
       (r : HttpResponse) (getf : String → HttpOutcome),
       r.status_code ∉ [200, 201, 202] →
       send_whatsapp row t c iu ifn d ⟨HttpOutcome.resp r, getf⟩ =
         ({ to_number := pyStrip (rowGet row "to_number" ""),
            to_name := pyStrip (rowGet row "to_name" ""),
            status_code := some r.status_code,
            broadcast_id := none,
            send_response := some r.text,
            log_status_code := none,
            log_response := none,
            error := some (Json.dumps (jsonOrRaw r)) },
          [NetEvent.post post_url_path
            (buildPayload (pyStrip (rowGet row "to_number" ""))
              (pyStrip (rowGet row "to_name" "")) t c iu ifn)])) ∧
    ((run_batch "tpl" "chan" none none 0 nets3 rows3).1.length = 3 ∧
     (run_batch "tpl" "chan" none none 0 nets3 rows3).1[1]? =
       some { to_number := "+6282", to_name := "Bob", status_code := some 422,
              broadcast_id := none, send_response := some (Json.dumps err422Data),
              log_status_code := none, log_response := none,
              error := some (Json.dumps err422Data) } ∧
     strHasSub (Json.dumps err422Data) "invalid number" = true ∧
     (run_batch "tpl" "chan" none none 0 nets3 rows3).1[0]? =
       some { to_number := "+6281", to_name := "Alice", status_code := some 201,
              broadcast_id := some (Json.str "bc_1"),
              send_response := some (Json.dumps sampleIdData),
              log_status_code := some 200, log_response := some "log-body",
              error := none } ∧
     (run_batch "tpl" "chan" none none 0 nets3 rows3).1[2]? =
       some { to_number := "+6283", to_name := "Cara", status_code := some 201,
              broadcast_id := some (Json.str "bc_1"),
              send_response := some (Json.dumps sampleIdData),
              log_status_code := some 200, log_response := some "log-body",
              error := none }) := by
  constructor
  · intro row t c iu ifn d r getf hst
    simp only [send_whatsapp]
    rw [if_neg hst]
    rfl
  · exact ⟨rfl, rfl, rfl, rfl, rfl⟩

/-- Witness for C2: the general statement instantiated at the 422 rejection
of the scenario oracle. -/
theorem c2_witness_http422 :
    (422 : Nat) ∉ [200, 201, 202] ∧
    send_whatsapp sampleRow "tpl" "chan" none none 10
        ⟨HttpOutcome.resp ⟨422, Json.dumps err422Data, Except.ok err422Data⟩,
         sampleLogResp⟩ =
      ({ to_number := "+628123", to_name := "Dina", status_code := some 422,
         broadcast_id := none, send_response := some (Json.dumps err422Data),
         log_status_code := none, log_response := none,
         error := some (Json.dumps err422Data) },
       [NetEvent.post post_url_path
          (buildPayload "+628123" "Dina" "tpl" "chan" none none)]) :=
  ⟨by decide,
   c2_nonsuccess_send_captures_error_without_id.1 sampleRow "tpl" "chan"
     none none 10 ⟨422, Json.dumps err422Data, Except.ok err422Data⟩
     sampleLogResp (by decide)⟩

/-- C3: a send returning a success status (200/201/202) whose parsed body
carries a truthy broadcast identifier at `data.id` triggers exactly one log
fetch, preceded by the `time.sleep(max(0, delay))` wait, against the path
parameterized by that identifier; the fetch's status and body populate
`log_status_code` and `log_response`.  The trace equality shows the fetch is
never skipped, also at delay 0. -/
theorem c3_success_with_id_fetches_log_after_delay
    (row : Row) (t c : String) (iu ifn : Option String) (d : ℚ)
    (r g : HttpResponse) (getf : String → HttpOutcome) (data idv : Json)
    (hst : r.status_code ∈ [200, 201, 202])
    (hjson : r.jsonBody = Except.ok data)
    (hid : extractBroadcastId data = Except.ok (some idv))
    (htr : idv.truthy = true)
    (hget : getf (logPath idv) = HttpOutcome.resp g) :
    send_whatsapp row t c iu ifn d ⟨HttpOutcome.resp r, getf⟩ =
      ({ to_number := pyStrip (rowGet row "to_number" ""),
         to_name := pyStrip (rowGet row "to_name" ""),
         status_code := some r.status_code,
         broadcast_id := some idv,
         send_response := some r.text,
         log_status_code := some g.status_code,
         log_response := some g.text,
         error := none },
       [NetEvent.post post_url_path
          (buildPayload (pyStrip (rowGet row "to_number" ""))
            (pyStrip (rowGet row "to_name" "")) t c iu ifn),
        NetEvent.sleep (max 0 d),
        NetEvent.get (logPath idv)]) := by
  have hget' : getf ("/qontak/chat/v1/broadcasts/" ++ idv.pyStr ++ "/whatsapp/log") =
      HttpOutcome.resp g := hget
  simp only [send_whatsapp]
  rw [if_pos hst, hjson]
  simp only []
  rw [hid]
  simp only [htr, if_pos]
  rw [hget']
  rfl

/-- Witness for C3: id `bc_123`, delay 0 — the log GET happens at once, on a
path containing `bc_123`. -/
theorem c3_witness_bc123_zero_delay :
    ((202 : Nat) ∈ [200, 201, 202] ∧
     extractBroadcastId bc123Data = Except.ok (some (Json.str "bc_123")) ∧
     (Json.str "bc_123").truthy = true ∧
     strHasSub (logPath (Json.str "bc_123")) "bc_123" = true) ∧
    send_whatsapp sampleRow "tpl" "chan" none none 0 bc123Net =
      ({ to_number := "+628123", to_name := "Dina", status_code := some 202,
         broadcast_id := some (Json.str "bc_123"),
         send_response := some (Json.dumps bc123Data),
         log_status_code := some 200, log_response := some "log-ok",
         error := none },
       [NetEvent.post post_url_path
          (buildPayload "+628123" "Dina" "tpl" "chan" none none),
        NetEvent.sleep (max 0 0),
        NetEvent.get (logPath (Json.str "bc_123"))]) :=
  ⟨⟨by decide, rfl, rfl, rfl⟩,
   c3_success_with_id_fetches_log_after_delay sampleRow "tpl" "chan" none none 0
     ⟨202, Json.dumps bc123Data, Except.ok bc123Data⟩
     ⟨200, "log-ok", Except.ok Json.null⟩
     (fun _ => HttpOutcome.resp ⟨200, "log-ok", Except.ok Json.null⟩)
     bc123Data (Json.str "bc_123") (by decide) rfl rfl rfl rfl⟩

/-- C4: a transport exception during the send or the log fetch is absorbed
inside `send_whatsapp` — the function still returns a result, with `error`
set to the exception text — and the batch loop still yields one result per
recipient, in order, so processing of subsequent recipients continues. -/
theorem c4_transport_exception_isolated_per_recipient :
    (∀ (row : Row) (t c : String) (iu ifn : Option String) (d : ℚ)
       (msg : String) (getf : String → HttpOutcome),
       send_whatsapp row t c iu ifn d ⟨HttpOutcome.exn msg, getf⟩ =
         ({ to_number := pyStrip (rowGet row "to_number" ""),
            to_name := pyStrip (rowGet row "to_name" ""),
            status_code := none, broadcast_id := none, send_response := none,
            log_status_code := none, log_response := none,
            error := some msg },
          [NetEvent.post post_url_path
            (buildPayload (pyStrip (rowGet row "to_number" ""))
              (pyStrip (rowGet row "to_name" "")) t c iu ifn)])) ∧
    (∀ (row : Row) (t c : String) (iu ifn : Option String) (d : ℚ)
       (r : HttpResponse) (getf : String → HttpOutcome) (data idv : Json)
       (msg : String),
       r.status_code ∈ [200, 201, 202] →
       r.jsonBody = Except.ok data →
       extractBroadcastId data = Except.ok (some idv) →
       idv.truthy = true →
       getf (logPath idv) = HttpOutcome.exn msg →
       (send_whatsapp row t c iu ifn d ⟨HttpOutcome.resp r, getf⟩).1.error = some msg) ∧
    (∀ (t c : String) (iu ifn : Option String) (d : ℚ)
       (nets : Nat → NetOracle) (rows : List Row),
       (run_batch t c iu ifn d nets rows).1.length = rows.length ∧
       ∀ i : Nat, (run_batch t c iu ifn d nets rows).1[i]? =
         (rows[i]?).map (fun row => (send_whatsapp row t c iu ifn d (nets i)).1)) := by
  refine ⟨fun row t c iu ifn d msg getf => rfl, ?_, ?_⟩
  · intro row t c iu ifn d r getf data idv msg hst hjson hid htr hget
    have hget' : getf ("/qontak/chat/v1/broadcasts/" ++ idv.pyStr ++ "/whatsapp/log") =
        HttpOutcome.exn msg := hget
    simp only [send_whatsapp]
    rw [if_pos hst, hjson]
    simp only []
    rw [hid]
    simp only [htr, if_pos]
    rw [hget']
  · intro t c iu ifn d nets rows
    exact ⟨run_batch_length t c iu ifn d nets rows,
           fun i => run_batch_nth t c iu ifn d nets rows i⟩

/-- Witness for C4: the log fetch times out for `bc_123`; the exception text
lands in `error` while the caller-facing function returns normally. -/
theorem c4_witness_log_timeout :
    ((201 : Nat) ∈ [200, 201, 202] ∧
     extractBroadcastId bc123Data = Except.ok (some (Json.str "bc_123")) ∧
     (Json.str "bc_123").truthy = true) ∧
    (send_whatsapp sampleRow "tpl" "chan" none none 10 getTimeoutNet).1.error =
      some "HTTPSConnectionPool: Read timed out." :=
  ⟨⟨by decide, rfl, rfl⟩,
   c4_transport_exception_isolated_per_recipient.2.1 sampleRow "tpl" "chan"
     none none 10 ⟨201, Json.dumps bc123Data, Except.ok bc123Data⟩
     (fun _ => HttpOutcome.exn "HTTPSConnectionPool: Read timed out.")
     bc123Data (Json.str "bc_123") "HTTPSConnectionPool: Read timed out."
     (by decide) rfl rfl rfl rfl⟩

/-- C5: the signer's output is a `Date` header holding the RFC-1123-style
formatted UTC clock reading and an `Authorization` header of the exact
`hmac username=...` form whose signature is the base64 HMAC-SHA256, keyed by
`client_secret`, of the two-line canonical string
`date: <Date>\n<METHOD> <path> HTTP/1.1`. -/
theorem c5_signer_output_format (m p cid sec : String) (now : PyDateTime) :
    generate_auth_headers m p cid sec now =
      { authorization :=
          "hmac username=\"" ++ cid ++ "\", algorithm=\"hmac-sha256\", " ++
            "headers=\"date request-line\", signature=\"" ++
            base64Encode (hmacSha256 (strBytes sec)
              (strBytes ("date: " ++ formatRfc1123 now ++ "\n" ++
                (m ++ " " ++ p ++ " HTTP/1.1")))) ++ "\"",
        date := formatRfc1123 now,
        contentType := "application/json" } := rfl

set_option maxRecDepth 100000 in
/-- C6: the signer is deterministic — for fixed inputs and clock reading two
invocations agree; at a fixed method, path and clock reading, changing the
secret or the path changes the emitted authorization header (hence the
signature, its only varying part); and the emitted `Date` header is exactly
the date string embedded in the canonical signing string. -/
theorem c6_signer_deterministic_and_input_sensitive :
    (∀ (m p cid sec : String) (now : PyDateTime),
       generate_auth_headers m p cid sec now = generate_auth_headers m p cid sec now) ∧
    ((generate_auth_headers "POST" "/a" "cid" "k1" sampleTime).authorization ==
       (generate_auth_headers "POST" "/a" "cid" "k2" sampleTime).authorization) = false ∧
    ((generate_auth_headers "POST" "/a" "cid" "k1" sampleTime).authorization ==
       (generate_auth_headers "POST" "/b" "cid" "k1" sampleTime).authorization) = false ∧
    (∀ (m p cid sec : String) (now : PyDateTime),
       (generate_auth_headers m p cid sec now).date = formatRfc1123 now ∧
       (generate_auth_headers m p cid sec now).authorization =
         "hmac username=\"" ++ cid ++ "\", algorithm=\"hmac-sha256\", " ++
           "headers=\"date request-line\", signature=\"" ++
           base64Encode (hmacSha256 (strBytes sec)
             (strBytes ("date: " ++ (generate_auth_headers m p cid sec now).date ++
               "\n" ++ (m ++ " " ++ p ++ " HTTP/1.1")))) ++ "\"") :=
  ⟨fun _ _ _ _ _ => rfl, by decide, by decide,
   fun m p cid sec now => ⟨rfl, rfl⟩⟩

/-- C7: if `to_number` or `to_name` is missing from the input columns, or any
of the client/template/channel values is empty, `run_clicked` aborts with a
single diagnostic before any network call — the event trace is empty and no
results are produced. -/
theorem c7_preconditions_abort_before_network
    (inp : RunInputs) (nets : Nat → NetOracle)
    (h : "to_number" ∉ inp.columns ∨ "to_name" ∉ inp.columns ∨
         inp.client_id = "" ∨ inp.client_secret = "" ∨ inp.template_id = "" ∨
         inp.channel_id = "") :
    ∃ msg, run_clicked inp nets = (RunOutcome.aborted msg, []) := by
  by_cases hc : pyAllStr [inp.client_id, inp.client_secret, inp.template_id,
    inp.channel_id] = true
  · rcases h with h | h | h | h | h | h
    · have hv : (validate_dataframe inp.columns).1 = false := by
        simp [validate_dataframe, h]
      refine ⟨"Missing required columns: " ++ joinComma (validate_dataframe inp.columns).2, ?_⟩
      simp [run_clicked, hc, hv]
    · have hv : (validate_dataframe inp.columns).1 = false := by
        simp [validate_dataframe, h]
      refine ⟨"Missing required columns: " ++ joinComma (validate_dataframe inp.columns).2, ?_⟩
      simp [run_clicked, hc, hv]
    all_goals (exfalso; simp [pyAllStr, h] at hc)
  · have hcf : pyAllStr [inp.client_id, inp.client_secret, inp.template_id,
        inp.channel_id] = false :=
      Bool.not_eq_true _ ▸ eq_false_of_ne_true hc
    refine ⟨"Client/Template/Channel credentials are missing. Provide them in the sidebar.", ?_⟩
    simp [run_clicked, hcf]

/-- Witness for C7: a dataframe without the `to_number` column aborts the
run with zero events. -/
theorem c7_witness_missing_to_number :
    "to_number" ∉ missingColInp.columns ∧
    ∃ msg, run_clicked missingColInp (fun _ => successNet) =
      (RunOutcome.aborted msg, []) :=
  ⟨by decide,
   c7_preconditions_abort_before_network missingColInp (fun _ => successNet)
     (Or.inl (by decide))⟩

/-- C8: the payload built for a recipient carries a `parameters.header`
block — format `IMAGE`, with `url` and `filename` params — exactly when a
media URL is configured; with no media URL the `header` key is absent and
`parameters` holds only the empty `body`. -/
theorem c8_payload_header_iff_media_configured
    (a b t c : String) (iu ifn : Option String) :
    payloadHeader (buildPayload a b t c iu ifn) =
      (if optTruthy iu then some (mediaHeaderBlock iu ifn) else none) ∧
    (optTruthy iu = false →
      buildPayload a b t c iu ifn = Json.obj
        [("to_number", Json.str a), ("to_name", Json.str b),
         ("message_template_id", Json.str t), ("channel_integration_id", Json.str c),
         ("language", Json.obj [("code", Json.str "id")]),
         ("parameters", Json.obj [("body", Json.arr [])])]) := by
  constructor
  · cases hiu : optTruthy iu with
    | true => simp [buildPayload, payloadHeader, jsonLookup, mediaHeaderBlock, hiu]
    | false => simp [buildPayload, payloadHeader, jsonLookup, hiu]
  · intro hiu
    simp [buildPayload, hiu]

/-- Witness for C8: with no media URL configured the header key is omitted
entirely; with one configured it is present. -/
theorem c8_witness_media_cases :
    optTruthy none = false ∧
    buildPayload "+62" "A" "tpl" "chan" none none = Json.obj
      [("to_number", Json.str "+62"), ("to_name", Json.str "A"),
       ("message_template_id", Json.str "tpl"), ("channel_integration_id", Json.str "chan"),
       ("language", Json.obj [("code", Json.str "id")]),
       ("parameters", Json.obj [("body", Json.arr [])])] ∧
    payloadHeader (buildPayload "+62" "A" "tpl" "chan" (some "https://x/y.jpg") none) =
      some (mediaHeaderBlock (some "https://x/y.jpg") none) :=
  ⟨rfl,
   (c8_payload_header_iff_media_configured "+62" "A" "tpl" "chan" none none).2 rfl,
   ((c8_payload_header_iff_media_configured "+62" "A" "tpl" "chan"
      (some "https://x/y.jpg") none).1).trans (by rfl)⟩

/-- C9: when the log fetch raises after a successful send that produced a
broadcast id, the returned result keeps `status_code`, `send_response` and
`broadcast_id` from the send stage, `log_status_code` and `log_response`
stay absent, and `error` holds the exception text — no rollback. -/
theorem c9_log_fetch_failure_preserves_send_fields
    (row : Row) (t c : String) (iu ifn : Option String) (d : ℚ)
    (r : HttpResponse) (getf : String → HttpOutcome) (data idv : Json) (msg : String)
    (hst : r.status_code ∈ [200, 201, 202])
    (hjson : r.jsonBody = Except.ok data)
    (hid : extractBroadcastId data = Except.ok (some idv))
    (htr : idv.truthy = true)
    (hget : getf (logPath idv) = HttpOutcome.exn msg) :
    send_whatsapp row t c iu ifn d ⟨HttpOutcome.resp r, getf⟩ =
      ({ to_number := pyStrip (rowGet row "to_number" ""),
         to_name := pyStrip (rowGet row "to_name" ""),
         status_code := some r.status_code,
         broadcast_id := some idv,
         send_response := some r.text,
         log_status_code := none,
         log_response := none,
         error := some msg },
       [NetEvent.post post_url_path
          (buildPayload (pyStrip (rowGet row "to_number" ""))
            (pyStrip (rowGet row "to_name" "")) t c iu ifn),
        NetEvent.sleep (max 0 d),
        NetEvent.get (logPath idv)]) := by
  have hget' : getf ("/qontak/chat/v1/broadcasts/" ++ idv.pyStr ++ "/whatsapp/log") =
      HttpOutcome.exn msg := hget
  simp only [send_whatsapp]
  rw [if_pos hst, hjson]
  simp only []
  rw [hid]
  simp only [htr, if_pos]
  rw [hget']
  rfl

/-- Witness for C9: a read timeout during the log fetch of `bc_123` leaves
the send-stage fields in place. -/
theorem c9_witness_read_timeout :
    ((201 : Nat) ∈ [200, 201, 202] ∧
     extractBroadcastId bc123Data = Except.ok (some (Json.str "bc_123")) ∧
     (Json.str "bc_123").truthy = true) ∧
    send_whatsapp sampleRow "tpl" "chan" none none 10 getTimeoutNet =
      ({ to_number := "+628123", to_name := "Dina", status_code := some 201,
         broadcast_id := some (Json.str "bc_123"),
         send_response := some (Json.dumps bc123Data),
         log_status_code := none, log_response := none,
         error := some "HTTPSConnectionPool: Read timed out." },
       [NetEvent.post post_url_path
          (buildPayload "+628123" "Dina" "tpl" "chan" none none),
        NetEvent.sleep (max 0 10),
        NetEvent.get (logPath (Json.str "bc_123"))]) :=
  ⟨⟨by decide, rfl, rfl⟩,
   c9_log_fetch_failure_preserves_send_fields sampleRow "tpl" "chan" none none 10
     ⟨201, Json.dumps bc123Data, Except.ok bc123Data⟩
     (fun _ => HttpOutcome.exn "HTTPSConnectionPool: Read timed out.")
     bc123Data (Json.str "bc_123") "HTTPSConnectionPool: Read timed out."
     (by decide) rfl rfl rfl rfl⟩

/-- C10: a send with a success status whose body fails to parse as JSON still
returns normally: `status_code` and `send_response` hold the success values,
`broadcast_id` is absent, no log fetch is attempted (trace is just the POST),
and `error` carries the parse exception text — a success status coexisting
with a set `error` field. -/
theorem c10_success_status_with_unparseable_body
    (row : Row) (t c : String) (iu ifn : Option String) (d : ℚ)
    (r : HttpResponse) (getf : String → HttpOutcome) (msg : String)
    (hst : r.status_code ∈ [200, 201, 202])
    (hjson : r.jsonBody = Except.error msg) :
    send_whatsapp row t c iu ifn d ⟨HttpOutcome.resp r, getf⟩ =
      ({ to_number := pyStrip (rowGet row "to_number" ""),
         to_name := pyStrip (rowGet row "to_name" ""),
         status_code := some r.status_code,
         broadcast_id := none,
         send_response := some r.text,
         log_status_code := none,
         log_response := none,
         error := some msg },
       [NetEvent.post post_url_path
          (buildPayload (pyStrip (rowGet row "to_number" ""))
            (pyStrip (rowGet row "to_name" "")) t c iu ifn)]) := by
  simp only [send_whatsapp]
  rw [if_pos hst, hjson]

/-- Witness for C10: a 200 response with an HTML body — the parse exception
text lands in `error`, `broadcast_id` stays absent, no GET happens. -/
theorem c10_witness_html_body :
    ((200 : Nat) ∈ [200, 201, 202] ∧
     badJsonResp.jsonBody = Except.error "Expecting value: line 1 column 1 (char 0)") ∧
    send_whatsapp sampleRow "tpl" "chan" none none 10
        ⟨HttpOutcome.resp badJsonResp, sampleLogResp⟩ =
      ({ to_number := "+628123", to_name := "Dina", status_code := some 200,
         broadcast_id := none,
         send_response := some "<html>Service maintenance</html>",
         log_status_code := none, log_response := none,
         error := some "Expecting value: line 1 column 1 (char 0)" },
       [NetEvent.post post_url_path
          (buildPayload "+628123" "Dina" "tpl" "chan" none none)]) :=
  ⟨⟨by decide, rfl⟩,
   c10_success_status_with_unparseable_body sampleRow "tpl" "chan" none none 10
     badJsonResp sampleLogResp "Expecting value: line 1 column 1 (char 0)"
     (by decide) rfl⟩

/-- Sanity check of the hash embedding: the FIPS 180-4 test vector for
`sha256("abc")`. -/
theorem sha256_abc_test_vector : sha256 (strBytes "abc") =
    [0xba, 0x78, 0x16, 0xbf, 0x8f, 0x01, 0xcf, 0xea, 0x41, 0x41, 0x40, 0xde,
     0x5d, 0xae, 0x22, 0x23, 0xb0, 0x03, 0x61, 0xa3, 0x96, 0x17, 0x7a, 0x9c,
     0xb4, 0x10, 0xff, 0x61, 0xf2, 0x00, 0x15, 0xad] := by decide
